import Mathlib

/-!
Shallow embedding of the `amazon-textract-grader` CDK constructs: the
Amazon Textract multi-page-document analysis state machine, the PDF
orientation-correction state machine, and the top-level assignments
orchestrator, together with the Lambda-invoke task helper.

The CDK sources declare Step Functions topologies; we embed the declared
transition structure and input/output processing and prove the spec's
claims about them.
-/

/-! ### Document-analysis job runner
(AmazonTextractMultiPagesDocumentsStateMachineConstruct) -/

/-- JobStatus value that routes the Choice to `jobFinish`. -/
def statusSucceeded : String := "SUCCEEDED"

/-- JobStatus value that routes the Choice to `jobFailed`. -/
def statusFailed : String := "FAILED"

/-- Declared cause of the `Job Failed` Fail state. -/
def jobFailedCause : String := "Amazon Textract Job Failed"

/-- Declared error of the `Job Failed` Fail state. -/
def jobFailedError : String := "DescribeJob returned FAILED"

/-- Declared duration of the `Wait 1 minute` state, in seconds. -/
def waitSeconds : Nat := 60

/-- Declared timeout of the analysis state machine, in seconds
(Duration.minutes 180). -/
def texTimeoutSeconds : Nat := 180 * 60

/-- Execution record of the analysis state machine: the input key plus the
fields written at resultPath `$.textract` and `$.status`. -/
structure TexRecord where
  key : String
  jobId : Option String
  jobStatus : Option String
deriving DecidableEq

/-- Parameters of the `Job Finish` Pass state: the key, the job id, and
the prefix formatted from both (States.Format of key, slash, job id). -/
structure JobFinishRecord where
  key : String
  JobId : String
  textractPrefix : String
deriving DecidableEq

/-- States of the analysis machine. `timedOut` is the forced failure when
the declared 180-minute machine timeout is exceeded. -/
inductive TexState where
  | runAmazonTextract
  | waitOneMinute
  | getDocumentAnalysis
  | checkJobStatus
  | jobFailedState (cause : String) (error : String)
  | jobFinishState (out : JobFinishRecord)
  | timedOut
deriving DecidableEq

/-- Success-terminal predicate: the `Job Finish` Pass state. -/
def TexState.isSuccess : TexState → Bool
  | .jobFinishState _ => true
  | _ => false

/-- Failure-terminal predicate: the `Job Failed` Fail state. -/
def TexState.isFailure : TexState → Bool
  | .jobFailedState _ _ => true
  | _ => false

/-- Configuration: current state, number of completed polls, seconds spent
in Wait states, and the execution record. -/
structure TexConfig where
  state : TexState
  pollCount : Nat
  elapsedSeconds : Nat
  record : TexRecord
deriving DecidableEq

/-- Environment supplied by the external Textract service: the JobId that
startDocumentAnalysis returns, and the JobStatus each successive
getDocumentAnalysis poll reports. -/
structure TexEnv where
  jobId : String
  pollStatus : Nat → String

/-- Parameters of the `Job Finish` Pass: key from `$.key`, JobId from
`$.textract.JobId`, and textractPrefix = States.Format of key and JobId
joined by a slash. -/
def jobFinishParams (r : TexRecord) : JobFinishRecord :=
  { key := r.key, JobId := r.jobId.getD "",
    textractPrefix := r.key ++ "/" ++ r.jobId.getD "" }

/-- Terminal states make no further transition. -/
def texTerminal : TexState → Bool
  | .jobFailedState _ _ => true
  | .jobFinishState _ => true
  | .timedOut => true
  | _ => false

/-- One transition of the declared machine:
definition = runAmazonTextract.next(wait).next(getDocumentAnalysis).next(choice),
with choice = FAILED to jobFailed, SUCCEEDED to jobFinish, otherwise back to
wait. Exceeding the declared timeout forcibly fails the execution. -/
def texStep (env : TexEnv) (c : TexConfig) : TexConfig :=
  if texTerminal c.state then c
  else if texTimeoutSeconds < c.elapsedSeconds then { c with state := .timedOut }
  else
    match c.state with
    | .runAmazonTextract =>
        { c with state := .waitOneMinute,
                 record := { c.record with jobId := some env.jobId } }
    | .waitOneMinute =>
        { c with state := .getDocumentAnalysis,
                 elapsedSeconds := c.elapsedSeconds + waitSeconds }
    | .getDocumentAnalysis =>
        { c with state := .checkJobStatus,
                 pollCount := c.pollCount + 1,
                 record := { c.record with jobStatus := some (env.pollStatus c.pollCount) } }
    | .checkJobStatus =>
        if c.record.jobStatus = some statusFailed then
          { c with state := .jobFailedState jobFailedCause jobFailedError }
        else if c.record.jobStatus = some statusSucceeded then
          { c with state := TexState.jobFinishState (jobFinishParams c.record) }
        else
          { c with state := .waitOneMinute }
    | _ => c

/-- Run the machine for a given number of transitions. -/
def texRun (env : TexEnv) : Nat → TexConfig → TexConfig
  | 0, c => c
  | n + 1, c => texRun env n (texStep env c)

/-- Initial configuration for an input object key. -/
def texInit (key : String) : TexConfig :=
  { state := .runAmazonTextract, pollCount := 0, elapsedSeconds := 0,
    record := { key := key, jobId := none, jobStatus := none } }

/-- Canonical configuration sitting at the Wait state inside the poll loop. -/
def texWaitCfg (key j : String) (i : Nat) (st : Option String) (e : Nat) : TexConfig :=
  { state := .waitOneMinute, pollCount := i, elapsedSeconds := e,
    record := { key := key, jobId := some j, jobStatus := st } }

/-- Loop invariant under a service that never reports a terminal status:
the recorded status is absent or one the service reported, and the state
is not a Success or Failure terminal. -/
def texLoopInv (env : TexEnv) (c : TexConfig) : Prop :=
  (c.record.jobStatus = none ∨ ∃ i, c.record.jobStatus = some (env.pollStatus i)) ∧
  c.state.isSuccess = false ∧ c.state.isFailure = false

/-! ### Orientation-correction pipeline
(CorrectPdfOrientationStateMachineConstruct) -/

/-- Declared duration of the `Wait 5 seconds` state, in seconds. -/
def orientWaitSeconds : Nat := 5

/-- States of the orientation-correction machine, named after the declared
tasks, choice, pass and wait. -/
inductive OrientState where
  | pdfToImagesTask
  | skipRotationChoice
  | skipFixingRotation
  | analyzeDocumentImagesTask
  | correctImageOrientationTask
  | waitFiveSeconds
  | imagesToPdfTask
deriving DecidableEq

/-- Input of the orientation machine: the object key and the optional
skipRotation field. -/
structure OrientInput where
  key : String
  skipRotation : Option Bool
deriving DecidableEq

/-- The declared Choice condition Condition.isPresent on `$.skipRotation`:
it tests only presence of the field, never its value. -/
def skipRotationPresent (i : OrientInput) : Bool :=
  i.skipRotation.isSome

/-- States visited inside the Skip Rotation Choice: the when-branch is the
Skip Fixing Rotation pass; the otherwise-branch chains analyze, correct
and the 5-second wait. -/
def skipRotationChoicePath (i : OrientInput) : List OrientState :=
  if skipRotationPresent i then [OrientState.skipFixingRotation]
  else [OrientState.analyzeDocumentImagesTask, OrientState.correctImageOrientationTask,
        OrientState.waitFiveSeconds]

/-- Full visited-state sequence:
definition = pdfToImagesTask.next(skipRotationChoice), and
skipRotationChoice.afterwards().next(imagesToPdfTask). -/
def orientPath (i : OrientInput) : List OrientState :=
  OrientState.pdfToImagesTask :: OrientState.skipRotationChoice ::
    (skipRotationChoicePath i ++ [OrientState.imagesToPdfTask])

/-! ### Top-level orchestrator (AssignmentsTextractStateMachineConstruct) -/

/-- Top-level execution input contract. -/
structure OrchInput where
  scriptsKey : String
  standardAnswerKey : String
deriving DecidableEq

/-- Parameters of the StandardAnswerPass state: key from
`$.standardAnswerKey` and skipRotation set to true (a dummy value; only
presence matters downstream), written at resultPath `$.Input`. -/
def standardAnswerPassInput (x : OrchInput) : OrientInput :=
  OrientInput.mk x.standardAnswerKey (some true)

/-- Parameters of the ScriptsPass state: key from `$.scriptsKey`; no
skipRotation field is set. -/
def scriptsPassInput (x : OrchInput) : OrientInput :=
  OrientInput.mk x.scriptsKey none

/-- Combined record produced by the ProcessParallel resultSelector: the
scripts slot from `$.[0].Output` and the standardAnswer slot from
`$.[1].Output`. -/
structure CombinedRecord (α : Type) where
  scripts : α
  standardAnswer : α
deriving DecidableEq

/-- Output of a branch by index, recovered from the completion events
(branch index paired with its output, listed in completion order). -/
def branchResult {α : Type} (events : List (Fin 2 × α)) (i : Fin 2) : Option α :=
  (events.find? (fun e => e.1 == i)).map (fun e => e.2)

/-- The ProcessParallel resultSelector applied once both branches have
completed: position 0 feeds scripts, position 1 feeds standardAnswer. -/
def processParallelOutput {α : Type} (events : List (Fin 2 × α)) :
    Option (CombinedRecord α) :=
  match branchResult events 0, branchResult events 1 with
  | some s, some a => some (CombinedRecord.mk s a)
  | _, _ => none

/-- Steps of the orchestrator definition. -/
inductive OrchStep where
  | startPass
  | scriptsPass
  | scriptsCorrectPdfOrientationExecution
  | scriptsTextractExecution
  | scriptsTransformFormResultExecution
  | standardAnswerPass
  | answerCorrectPdfOrientationExecution
  | answerTextractExecution
  | answerTransformFormResultExecution
  | processParallel
  | generateMarkResultExecution
deriving DecidableEq

/-- The two branch chains, in the order they are attached to the Parallel:
branch 0 begins with ScriptsPass, branch 1 with StandardAnswerPass. -/
def parallelBranches : List (List OrchStep) :=
  [[OrchStep.scriptsPass, OrchStep.scriptsCorrectPdfOrientationExecution,
    OrchStep.scriptsTextractExecution, OrchStep.scriptsTransformFormResultExecution],
   [OrchStep.standardAnswerPass, OrchStep.answerCorrectPdfOrientationExecution,
    OrchStep.answerTextractExecution, OrchStep.answerTransformFormResultExecution]]

/-! ### Lambda-invoke task input/output processing (lambda-helper.ts) -/

/-- Minimal JSON model for Step Functions input/output processing. -/
inductive Json where
  | null
  | bool (b : Bool)
  | num (n : Int)
  | str (s : String)
  | obj (fields : List (String × Json))

/-- Association-list lookup on object fields. -/
def lookupAssoc : List (String × Json) → String → Option Json
  | [], _ => none
  | (k2, v2) :: rest, k => if k2 = k then some v2 else lookupAssoc rest k

/-- Set (or add) a field of an association list. -/
def setAssoc : List (String × Json) → String → Json → List (String × Json)
  | [], k, v => [(k, v)]
  | (k2, v2) :: rest, k, v =>
      if k2 = k then (k, v) :: rest else (k2, v2) :: setAssoc rest k v

/-- Field selection, as used by the outputPath expressions. -/
def Json.getField : Json → String → Option Json
  | Json.obj fs, k => lookupAssoc fs k
  | _, _ => none

/-- The resultPath merge: write the task result at a field of the input
record (the record must be an object). -/
def Json.setField : Json → String → Json → Option Json
  | Json.obj fs, k, v => some (Json.obj (setAssoc fs k v))
  | _, _, _ => none

/-- The raw result object of a LambdaInvoke: the function's response sits
under the Payload field alongside invocation metadata. -/
def lambdaInvokeResult (payload : Json) : Json :=
  Json.obj [("ExecutedVersion", Json.str "LATEST"), ("Payload", payload),
            ("StatusCode", Json.num 200)]

/-- Input/output processing of the tasks built by getLambdaInvokeTask:
resultPath `$.results` merges the invoke result into the record, then
outputPath `$.results.Payload` selects the task output. -/
def getLambdaInvokeTaskOutput (input payload : Json) : Option Json :=
  (Json.setField input "results" (lambdaInvokeResult payload)).bind
    (fun merged => (merged.getField "results").bind
      (fun r => r.getField "Payload"))

/-! ### Error handling of compute steps -/

/-- A declared step: its id, the retry policies attached to it (maximum
extra attempts each), and the catch handlers attached to it. The
constructs attach none: no addRetry and no addCatch appears in the
sources. -/
structure TaskDefn where
  id : String
  retriers : List Nat
  catchers : List String
deriving DecidableEq

/-- Extra attempts allowed beyond the first, from the declared retry
policies. -/
def extraAttempts (t : TaskDefn) : Nat :=
  t.retriers.foldl (fun acc r => acc + r) 0

/-- First success within the attempt budget, else the last error. -/
def runAttempts (attempt : Nat → Except String Json) : Nat → Nat → Except String Json
  | i, 0 => attempt i
  | i, n + 1 =>
      match attempt i with
      | Except.ok v => Except.ok v
      | Except.error _ => runAttempts attempt (i + 1) n

/-- Run one step: retry policies grant extra attempts; a declared catch
handler recovers an error into a recovery output; with no catch handler
the error propagates. -/
def runTask (t : TaskDefn) (attempt : Nat → Except String Json) : Except String Json :=
  match runAttempts attempt 0 (extraAttempts t) with
  | Except.ok v => Except.ok v
  | Except.error e =>
      match t.catchers with
      | [] => Except.error e
      | _ :: _ => Except.ok (Json.obj [("Error", Json.str e)])

/-- Run a chain of steps in order: a step error fails the whole chain with
that error; later steps are not run and no partial output survives. -/
def runChain (ts : List TaskDefn) (attempts : String → Nat → Except String Json) :
    Except String (List Json) :=
  match ts with
  | [] => Except.ok []
  | t :: rest =>
      match runTask t (attempts t.id) with
      | Except.error e => Except.error e
      | Except.ok v =>
          match runChain rest attempts with
          | Except.error e => Except.error e
          | Except.ok vs => Except.ok (v :: vs)

/-- The declared steps of the orientation machine: none carries a retry
policy or a catch branch. -/
def orientTaskDefn : OrientState → TaskDefn
  | OrientState.pdfToImagesTask => TaskDefn.mk "PdfToImagesTask" [] []
  | OrientState.skipRotationChoice => TaskDefn.mk "SkipRotationChoice" [] []
  | OrientState.skipFixingRotation => TaskDefn.mk "SkipFixingRotation" [] []
  | OrientState.analyzeDocumentImagesTask => TaskDefn.mk "AnalyzeDocumentImagesTask" [] []
  | OrientState.correctImageOrientationTask => TaskDefn.mk "CorrectImageOrientationTask" [] []
  | OrientState.waitFiveSeconds => TaskDefn.mk "WaitFiveSeconds" [] []
  | OrientState.imagesToPdfTask => TaskDefn.mk "ImagesToPdfTask" [] []

/-- The declared steps of the orchestrator: none carries a retry policy or
a catch branch. -/
def orchTaskDefn : OrchStep → TaskDefn
  | OrchStep.startPass => TaskDefn.mk "StartPass" [] []
  | OrchStep.scriptsPass => TaskDefn.mk "ScriptsPass" [] []
  | OrchStep.scriptsCorrectPdfOrientationExecution =>
      TaskDefn.mk "ScriptsCorrectPdfOrientationStateMachineExecution" [] []
  | OrchStep.scriptsTextractExecution =>
      TaskDefn.mk "ScriptsAmazonTextractMultiPagesDocumentsStateMachineExecution" [] []
  | OrchStep.scriptsTransformFormResultExecution =>
      TaskDefn.mk "ScriptsTransformFormResultStateMachineExecution" [] []
  | OrchStep.standardAnswerPass => TaskDefn.mk "StandardAnswerPass" [] []
  | OrchStep.answerCorrectPdfOrientationExecution =>
      TaskDefn.mk "AnswerCorrectPdfOrientationStateMachineExecution" [] []
  | OrchStep.answerTextractExecution =>
      TaskDefn.mk "AnswerAmazonTextractMultiPagesDocumentsStateMachineExecution" [] []
  | OrchStep.answerTransformFormResultExecution =>
      TaskDefn.mk "AnswerTransformFormResultStateMachineExecution" [] []
  | OrchStep.processParallel => TaskDefn.mk "ProcessParallel" [] []
  | OrchStep.generateMarkResultExecution =>
      TaskDefn.mk "GenerateMarkResultStateMachineExecution" [] []

/-- The chain of declared steps the orientation machine visits for a given
input. -/
def orientTaskChain (i : OrientInput) : List TaskDefn :=
  (orientPath i).map orientTaskDefn

/-- The top-level orchestrator definition:
start.next(parallel).next(generateMarkResultStateMachineExecution). -/
def orchestratorTaskChain : List TaskDefn :=
  [OrchStep.startPass, OrchStep.processParallel,
   OrchStep.generateMarkResultExecution].map orchTaskDefn

/-! ### Analysis-job submission parameters (RunAmazonTextract) -/

/-- Parameters of the startDocumentAnalysis call declared on the
RunAmazonTextract task. -/
structure StartDocumentAnalysisParams where
  ClientRequestToken : String
  DocumentBucket : String
  DocumentName : String
  FeatureTypes : List String
  JobTag : String
  OutputBucket : String
  OutputPrefix : String
deriving DecidableEq

/-- The declared parameters: ClientRequestToken and JobTag are both
`$$.Execution.Name`; the document is the input key in the source bucket;
features FORMS and TABLES; output under the key prefix in the destination
bucket. -/
def runAmazonTextractParams (executionName key sourceBucket destinationBucket : String) :
    StartDocumentAnalysisParams :=
  StartDocumentAnalysisParams.mk executionName sourceBucket key ["FORMS", "TABLES"]
    executionName destinationBucket key

/-- Lookup of a client request token among already started jobs. -/
def lookupToken : List (String × String) → String → Option String
  | [], _ => none
  | (k, v) :: rest, t => if k = t then some v else lookupToken rest t

/-- Modelled from the spec: the external document-analysis service of
section 6, which is not part of this repository. A start request whose
client request token matches an already-started job returns that job's
identifier instead of starting a new job; otherwise a fresh identifier is
issued and recorded against the token. -/
def startDocumentAnalysisService (freshId : Nat → String)
    (started : List (String × String)) (p : StartDocumentAnalysisParams) :
    List (String × String) × String :=
  match lookupToken started p.ClientRequestToken with
  | some j => (started, j)
  | none => ((p.ClientRequestToken, freshId started.length) :: started,
      freshId started.length)

theorem texRun_add (env : TexEnv) (a b : Nat) (c : TexConfig) :
    texRun env (a + b) c = texRun env b (texRun env a c) := by
  induction a generalizing c with
  | zero => simp [texRun]
  | succ a ih =>
      have : a + 1 + b = (a + b) + 1 := by omega
      rw [this]
      simp only [texRun]
      exact ih (texStep env c)

theorem texStep_terminal (env : TexEnv) (c : TexConfig)
    (h : texTerminal c.state = true) : texStep env c = c := by
  simp [texStep, h]

theorem texRun_terminal (env : TexEnv) (c : TexConfig) (m : Nat)
    (h : texTerminal c.state = true) : texRun env m c = c := by
  induction m with
  | zero => rfl
  | succ m ih => simp [texRun, texStep_terminal env c h, ih]

theorem texStep_init (env : TexEnv) (key : String) :
    texStep env (texInit key) = texWaitCfg key env.jobId 0 none 0 := by
  simp [texStep, texInit, texWaitCfg, texTerminal, texTimeoutSeconds]

theorem texRun_cycle (env : TexEnv) (key j : String) (i : Nat) (st : Option String) (e : Nat)
    (he : e + waitSeconds ≤ texTimeoutSeconds)
    (h1 : env.pollStatus i ≠ statusSucceeded) (h2 : env.pollStatus i ≠ statusFailed) :
    texRun env 3 (texWaitCfg key j i st e) =
      texWaitCfg key j (i + 1) (some (env.pollStatus i)) (e + waitSeconds) := by
  have he' : e + 60 ≤ 10800 := by
    simpa [waitSeconds, texTimeoutSeconds] using he
  have hA : ¬ texTimeoutSeconds < e := by
    unfold texTimeoutSeconds; omega
  have hB : ¬ texTimeoutSeconds < e + waitSeconds := by
    unfold texTimeoutSeconds waitSeconds; omega
  simp [texRun, texStep, texWaitCfg, texTerminal, hA, hB, h1, h2]

theorem texRun_succeed (env : TexEnv) (key j : String) (i : Nat) (st : Option String) (e : Nat)
    (he : e + waitSeconds ≤ texTimeoutSeconds)
    (hs : env.pollStatus i = statusSucceeded) :
    texRun env 3 (texWaitCfg key j i st e) =
      { state := TexState.jobFinishState (JobFinishRecord.mk key j (key ++ "/" ++ j)),
        pollCount := i + 1, elapsedSeconds := e + waitSeconds,
        record := { key := key, jobId := some j, jobStatus := some (env.pollStatus i) } } := by
  have he' : e + 60 ≤ 10800 := by
    simpa [waitSeconds, texTimeoutSeconds] using he
  have hA : ¬ texTimeoutSeconds < e := by
    unfold texTimeoutSeconds; omega
  have hB : ¬ texTimeoutSeconds < e + waitSeconds := by
    unfold texTimeoutSeconds waitSeconds; omega
  have hne : statusSucceeded ≠ statusFailed := by decide
  simp [texRun, texStep, texWaitCfg, texTerminal, hA, hB, hs, hne, jobFinishParams]

theorem texRun_fail (env : TexEnv) (key j : String) (i : Nat) (st : Option String) (e : Nat)
    (he : e + waitSeconds ≤ texTimeoutSeconds)
    (hs : env.pollStatus i = statusFailed) :
    texRun env 3 (texWaitCfg key j i st e) =
      { state := TexState.jobFailedState jobFailedCause jobFailedError,
        pollCount := i + 1, elapsedSeconds := e + waitSeconds,
        record := { key := key, jobId := some j, jobStatus := some (env.pollStatus i) } } := by
  have he' : e + 60 ≤ 10800 := by
    simpa [waitSeconds, texTimeoutSeconds] using he
  have hA : ¬ texTimeoutSeconds < e := by
    unfold texTimeoutSeconds; omega
  have hB : ¬ texTimeoutSeconds < e + waitSeconds := by
    unfold texTimeoutSeconds waitSeconds; omega
  simp [texRun, texStep, texWaitCfg, texTerminal, hA, hB, hs]

theorem texRun_loop (env : TexEnv) (key j : String) (k : Nat) :
    ∀ i e st, e + k * waitSeconds ≤ texTimeoutSeconds →
    (∀ m, m < k → env.pollStatus (i + m) ≠ statusSucceeded ∧
        env.pollStatus (i + m) ≠ statusFailed) →
    ∃ st2, texRun env (3 * k) (texWaitCfg key j i st e) =
      texWaitCfg key j (i + k) st2 (e + k * waitSeconds) := by
  induction k with
  | zero =>
      intro i e st _ _
      exact ⟨st, by simp [texRun]⟩
  | succ k ih =>
      intro i e st he h
      have he' : e + (k + 1) * 60 ≤ 10800 := by
        simpa [waitSeconds, texTimeoutSeconds] using he
      have h0 := h 0 (by omega)
      simp only [Nat.add_zero] at h0
      have hcyc := texRun_cycle env key j i st e
        (by unfold waitSeconds texTimeoutSeconds; omega) h0.1 h0.2
      have hsplit : 3 * (k + 1) = 3 + 3 * k := by ring
      rw [hsplit, texRun_add, hcyc]
      have hnext : ∀ m, m < k → env.pollStatus (i + 1 + m) ≠ statusSucceeded ∧
          env.pollStatus (i + 1 + m) ≠ statusFailed := by
        intro m hm
        have := h (m + 1) (by omega)
        rwa [show i + (m + 1) = i + 1 + m by omega] at this
      obtain ⟨st2, hst2⟩ := ih (i + 1) (e + waitSeconds) (some (env.pollStatus i))
        (by unfold waitSeconds texTimeoutSeconds at *; omega) hnext
      refine ⟨st2, ?_⟩
      rw [hst2]
      have e1 : i + 1 + k = i + (k + 1) := by omega
      have e2 : e + waitSeconds + k * waitSeconds = e + (k + 1) * waitSeconds := by ring
      rw [e1, e2]

theorem texRun_finish (env : TexEnv) (m : Nat) (r : JobFinishRecord) (p e : Nat)
    (tr : TexRecord) :
    texRun env m (TexConfig.mk (TexState.jobFinishState r) p e tr) =
      TexConfig.mk (TexState.jobFinishState r) p e tr :=
  texRun_terminal env _ m rfl

theorem texRun_failcfg (env : TexEnv) (m : Nat) (a b : String) (p e : Nat)
    (tr : TexRecord) :
    texRun env m (TexConfig.mk (TexState.jobFailedState a b) p e tr) =
      TexConfig.mk (TexState.jobFailedState a b) p e tr :=
  texRun_terminal env _ m rfl

theorem texStep_never_submit (env : TexEnv) (c : TexConfig) :
    (texStep env c).state ≠ TexState.runAmazonTextract := by
  cases h : c.state <;>
    · simp only [texStep, texTerminal, h]
      split_ifs <;> simp_all

/-- C2: in every execution of the document-analysis job runner in which a
poll eventually returns SUCCEEDED (after non-terminal statuses, within the
timeout), the runner terminates in the `Job Finish` state whose result
record carries the input key, the submitted JobId, and textractPrefix
equal to the key and the JobId joined by a slash; the result is stable
under further transitions. -/
theorem textract_succeeded_result (env : TexEnv) (key : String) (n m : Nat)
    (hpre : ∀ i, i < n → env.pollStatus i ≠ statusSucceeded ∧ env.pollStatus i ≠ statusFailed)
    (hn : env.pollStatus n = statusSucceeded)
    (hbound : n ≤ 179) :
    (texRun env (3 * n + 4 + m) (texInit key)).state =
      TexState.jobFinishState (JobFinishRecord.mk key env.jobId (key ++ "/" ++ env.jobId)) := by
  have hrw : 3 * n + 4 + m = 1 + (3 * n + (3 + m)) := by omega
  rw [hrw, texRun_add]
  have h1 : texRun env 1 (texInit key) = texWaitCfg key env.jobId 0 none 0 := by
    simp [texRun, texStep_init]
  rw [h1, texRun_add]
  obtain ⟨st2, hloop⟩ := texRun_loop env key env.jobId n 0 0 none
    (by unfold waitSeconds texTimeoutSeconds; omega)
    (by intro mm hm; simpa using hpre mm hm)
  rw [hloop, texRun_add]
  rw [texRun_succeed env key env.jobId (0 + n) st2 (0 + n * waitSeconds)
    (by unfold waitSeconds texTimeoutSeconds; omega) (by simpa using hn)]
  rw [texRun_finish]

/-- C2 witness: a poll succeeding immediately yields the finish record for
key exam.pdf and job id job-7. -/
theorem textract_succeeded_result_witness :
    (texRun (TexEnv.mk "job-7" (fun _ => statusSucceeded)) (3 * 0 + 4 + 0)
        (texInit "exam.pdf")).state =
      TexState.jobFinishState
        (JobFinishRecord.mk "exam.pdf" "job-7" ("exam.pdf" ++ "/" ++ "job-7")) :=
  textract_succeeded_result (TexEnv.mk "job-7" (fun _ => statusSucceeded)) "exam.pdf" 0 0
    (fun i hi => absurd hi (by omega)) rfl (by omega)

/-- C3: if some poll reports FAILED (after non-terminal statuses, within
the timeout), the execution reaches the terminal Failure state with the
fixed cause and error strings, regardless of how many polls preceded it,
and it stays there (the job is not retried). -/
theorem textract_failed_terminal (env : TexEnv) (key : String) (n m : Nat)
    (hpre : ∀ i, i < n → env.pollStatus i ≠ statusSucceeded ∧ env.pollStatus i ≠ statusFailed)
    (hn : env.pollStatus n = statusFailed)
    (hbound : n ≤ 179) :
    (texRun env (3 * n + 4 + m) (texInit key)).state =
      TexState.jobFailedState "Amazon Textract Job Failed" "DescribeJob returned FAILED" := by
  have hrw : 3 * n + 4 + m = 1 + (3 * n + (3 + m)) := by omega
  rw [hrw, texRun_add]
  have h1 : texRun env 1 (texInit key) = texWaitCfg key env.jobId 0 none 0 := by
    simp [texRun, texStep_init]
  rw [h1, texRun_add]
  obtain ⟨st2, hloop⟩ := texRun_loop env key env.jobId n 0 0 none
    (by unfold waitSeconds texTimeoutSeconds; omega)
    (by intro mm hm; simpa using hpre mm hm)
  rw [hloop, texRun_add]
  rw [texRun_fail env key env.jobId (0 + n) st2 (0 + n * waitSeconds)
    (by unfold waitSeconds texTimeoutSeconds; omega) (by simpa using hn)]
  rw [texRun_failcfg]
  simp [jobFailedCause, jobFailedError]

/-- C3 witness: a poll failing on the third poll yields the fixed Failure
state. -/
theorem textract_failed_terminal_witness :
    (texRun (TexEnv.mk "job-7" (fun i => if i < 2 then "IN_PROGRESS" else statusFailed))
        (3 * 2 + 4 + 1) (texInit "exam.pdf")).state =
      TexState.jobFailedState "Amazon Textract Job Failed" "DescribeJob returned FAILED" :=
  textract_failed_terminal
    (TexEnv.mk "job-7" (fun i => if i < 2 then "IN_PROGRESS" else statusFailed))
    "exam.pdf" 2 1
    (by intro i hi
        interval_cases i <;> exact ⟨by decide, by decide⟩)
    (by decide) (by omega)

/-- C6 counterexample: the declared chain is
runAmazonTextract.next(wait).next(getDocumentAnalysis), so the state
entered immediately after the Submit task is the Wait state, not the poll
state as the claim asserts. -/
theorem textract_submit_then_wait_counterexample :
    (texStep (TexEnv.mk "job-1" (fun _ => "IN_PROGRESS")) (texInit "doc.pdf")).state =
      TexState.waitOneMinute ∧
    (texStep (TexEnv.mk "job-1" (fun _ => "IN_PROGRESS")) (texInit "doc.pdf")).state ≠
      TexState.getDocumentAnalysis := by
  rw [texStep_init]
  exact ⟨rfl, by simp [texWaitCfg]⟩

/-- C6 (amended): the transition relation of the analysis machine is
Start→Submit taken once (Submit is never re-entered), Submit→Wait,
Wait→Poll, Poll→Decide, Decide→Success when the status is SUCCEEDED,
Decide→Failure when it is FAILED, Decide→Wait otherwise, with Success and
Failure terminal; in particular the state entered immediately after Submit
is the Wait state. -/
theorem textract_transition_relation (env : TexEnv) (c : TexConfig)
    (htime : c.elapsedSeconds ≤ texTimeoutSeconds) :
    (c.state = TexState.runAmazonTextract →
      texStep env c = { c with state := TexState.waitOneMinute,
                               record := { c.record with jobId := some env.jobId } }) ∧
    (c.state = TexState.waitOneMinute →
      texStep env c = { c with state := TexState.getDocumentAnalysis,
                               elapsedSeconds := c.elapsedSeconds + waitSeconds }) ∧
    (c.state = TexState.getDocumentAnalysis →
      texStep env c = { c with state := TexState.checkJobStatus,
                               pollCount := c.pollCount + 1,
                               record := { c.record with
                                 jobStatus := some (env.pollStatus c.pollCount) } }) ∧
    (c.state = TexState.checkJobStatus → c.record.jobStatus = some statusSucceeded →
      (texStep env c).state.isSuccess = true) ∧
    (c.state = TexState.checkJobStatus → c.record.jobStatus = some statusFailed →
      (texStep env c).state = TexState.jobFailedState jobFailedCause jobFailedError) ∧
    (c.state = TexState.checkJobStatus → c.record.jobStatus ≠ some statusSucceeded →
      c.record.jobStatus ≠ some statusFailed →
      (texStep env c).state = TexState.waitOneMinute) ∧
    (c.state.isSuccess = true → texStep env c = c) ∧
    (c.state.isFailure = true → texStep env c = c) ∧
    (∀ c2 : TexConfig, (texStep env c2).state ≠ TexState.runAmazonTextract) := by
  have hA : ¬ texTimeoutSeconds < c.elapsedSeconds := Nat.not_lt.mpr htime
  refine ⟨?_, ?_, ?_, ?_, ?_, ?_, ?_, ?_, texStep_never_submit env⟩
  · intro hs; simp [texStep, texTerminal, hs, hA]
  · intro hs; simp [texStep, texTerminal, hs, hA]
  · intro hs; simp [texStep, texTerminal, hs, hA]
  · intro hs hst
    have hne : ¬ c.record.jobStatus = some statusFailed := by
      rw [hst]; decide
    have hss : ¬ statusSucceeded = statusFailed := by decide
    simp [texStep, texTerminal, hs, hA, hst, hne, hss, TexState.isSuccess]
  · intro hs hst
    simp [texStep, texTerminal, hs, hA, hst]
  · intro hs h1 h2
    simp [texStep, texTerminal, hs, hA, h1, h2]
  · intro hs
    apply texStep_terminal
    cases hc : c.state <;> simp_all [TexState.isSuccess, texTerminal]
  · intro hs
    apply texStep_terminal
    cases hc : c.state <;> simp_all [TexState.isFailure, texTerminal]

/-- C6 witness: on a concrete configuration at the Wait state the machine
moves to the poll state, instantiating the amended transition relation. -/
theorem textract_transition_relation_witness :
    texStep (TexEnv.mk "job-1" (fun _ => "IN_PROGRESS"))
        (texWaitCfg "doc.pdf" "job-1" 0 none 0) =
      { (texWaitCfg "doc.pdf" "job-1" 0 none 0) with
          state := TexState.getDocumentAnalysis,
          elapsedSeconds := (texWaitCfg "doc.pdf" "job-1" 0 none 0).elapsedSeconds +
            waitSeconds } :=
  (textract_transition_relation (TexEnv.mk "job-1" (fun _ => "IN_PROGRESS"))
    (texWaitCfg "doc.pdf" "job-1" 0 none 0) (Nat.zero_le _)).2.1 rfl

theorem texStep_inv (env : TexEnv)
    (hnt : ∀ i, env.pollStatus i ≠ statusSucceeded ∧ env.pollStatus i ≠ statusFailed)
    (c : TexConfig) (h : texLoopInv env c) : texLoopInv env (texStep env c) := by
  obtain ⟨hjs, hsucc, hfail⟩ := h
  by_cases hterm : texTerminal c.state = true
  · rw [texStep_terminal env c hterm]
    exact ⟨hjs, hsucc, hfail⟩
  · by_cases htime : texTimeoutSeconds < c.elapsedSeconds
    · have hst : texStep env c = { c with state := TexState.timedOut } := by
        simp [texStep, hterm, htime]
      rw [hst]
      exact ⟨hjs, rfl, rfl⟩
    · cases hc : c.state with
      | runAmazonTextract =>
          have hst : texStep env c = TexConfig.mk TexState.waitOneMinute c.pollCount c.elapsedSeconds { c.record with jobId := some env.jobId } := by
            simp [texStep, texTerminal, htime, hc]
          rw [hst]
          exact ⟨hjs, rfl, rfl⟩
      | waitOneMinute =>
          have hst : texStep env c = TexConfig.mk TexState.getDocumentAnalysis c.pollCount (c.elapsedSeconds + waitSeconds) c.record := by
            simp [texStep, texTerminal, htime, hc]
          rw [hst]
          exact ⟨hjs, rfl, rfl⟩
      | getDocumentAnalysis =>
          have hst : texStep env c = TexConfig.mk TexState.checkJobStatus (c.pollCount + 1) c.elapsedSeconds { c.record with jobStatus := some (env.pollStatus c.pollCount) } := by
            simp [texStep, texTerminal, htime, hc]
          rw [hst]
          exact ⟨Or.inr ⟨c.pollCount, rfl⟩, rfl, rfl⟩
      | checkJobStatus =>
          have hF : ¬ c.record.jobStatus = some statusFailed := by
            rcases hjs with h0 | ⟨i, hi⟩
            · simp [h0]
            · rw [hi]
              simpa using (hnt i).2
          have hS : ¬ c.record.jobStatus = some statusSucceeded := by
            rcases hjs with h0 | ⟨i, hi⟩
            · simp [h0]
            · rw [hi]
              simpa using (hnt i).1
          have hst : texStep env c = { c with state := TexState.waitOneMinute } := by
            simp [texStep, texTerminal, htime, hc, hF, hS]
          rw [hst]
          exact ⟨hjs, rfl, rfl⟩
      | jobFailedState a b => exact absurd (by simp [texTerminal, hc]) hterm
      | jobFinishState r => exact absurd (by simp [texTerminal, hc]) hterm
      | timedOut => exact absurd (by simp [texTerminal, hc]) hterm

theorem texRun_inv (env : TexEnv)
    (hnt : ∀ i, env.pollStatus i ≠ statusSucceeded ∧ env.pollStatus i ≠ statusFailed)
    (fuel : Nat) : ∀ c : TexConfig, texLoopInv env c → texLoopInv env (texRun env fuel c) := by
  induction fuel with
  | zero => exact fun c h => h
  | succ n ih => exact fun c h => ih (texStep env c) (texStep_inv env hnt c h)

theorem texRun_timeout (env : TexEnv) (key : String)
    (hnt : ∀ i, env.pollStatus i ≠ statusSucceeded ∧ env.pollStatus i ≠ statusFailed) :
    (texRun env 543 (texInit key)).state = TexState.timedOut := by
  rw [show (543 : Nat) = 1 + (3 * 180 + 2) from by norm_num, texRun_add]
  have h1 : texRun env 1 (texInit key) = texWaitCfg key env.jobId 0 none 0 := by
    simp [texRun, texStep_init]
  rw [h1, texRun_add]
  obtain ⟨st2, hloop⟩ := texRun_loop env key env.jobId 180 0 0 none
    (by unfold waitSeconds texTimeoutSeconds; omega)
    (fun m hm => hnt (0 + m))
  rw [hloop]
  simp [texRun, texStep, texWaitCfg, texTerminal, waitSeconds, texTimeoutSeconds]

/-- C5: the runner polls on a fixed 1-minute interval: the declared Wait
is 60 seconds and the machine timeout 180 minutes; from the Decide state a
non-terminal status leads to the Wait state and then to another poll with
60 more seconds elapsed; and when the service never reports a terminal
status, no run of any length reaches Success or Failure, and a long enough
run is forcibly failed by the timeout. -/
theorem textract_polling_cadence (env : TexEnv) (key : String)
    (hnt : ∀ i, env.pollStatus i ≠ statusSucceeded ∧ env.pollStatus i ≠ statusFailed) :
    waitSeconds = 60 ∧ texTimeoutSeconds = 180 * 60 ∧
    (∀ c : TexConfig, c.state = TexState.checkJobStatus →
      c.elapsedSeconds ≤ texTimeoutSeconds →
      c.record.jobStatus ≠ some statusSucceeded →
      c.record.jobStatus ≠ some statusFailed →
      (texStep env c).state = TexState.waitOneMinute ∧
      (texStep env (texStep env c)).state = TexState.getDocumentAnalysis ∧
      (texStep env (texStep env c)).elapsedSeconds = c.elapsedSeconds + waitSeconds) ∧
    (∀ fuel : Nat, (texRun env fuel (texInit key)).state.isSuccess = false ∧
      (texRun env fuel (texInit key)).state.isFailure = false) ∧
    (texRun env 543 (texInit key)).state = TexState.timedOut := by
  refine ⟨rfl, rfl, ?_, ?_, texRun_timeout env key hnt⟩
  · intro c hs htime hS hF
    have hA : ¬ texTimeoutSeconds < c.elapsedSeconds := Nat.not_lt.mpr htime
    have hstep : texStep env c = { c with state := TexState.waitOneMinute } := by
      simp [texStep, texTerminal, hs, hA, hS, hF]
    have hstep2 : texStep env { c with state := TexState.waitOneMinute } = TexConfig.mk TexState.getDocumentAnalysis c.pollCount (c.elapsedSeconds + waitSeconds) c.record := by
      simp [texStep, texTerminal, hA]
    rw [hstep, hstep2]
    exact ⟨rfl, rfl, rfl⟩
  · intro fuel
    have hinv := texRun_inv env hnt fuel (texInit key) ⟨Or.inl rfl, rfl, rfl⟩
    exact ⟨hinv.2.1, hinv.2.2⟩

/-- C5 witness: with a service reporting IN_PROGRESS forever, the cadence
properties hold for key doc.pdf and the run is forcibly timed out. -/
theorem textract_polling_cadence_witness :
    waitSeconds = 60 ∧ texTimeoutSeconds = 180 * 60 ∧
    (∀ c : TexConfig, c.state = TexState.checkJobStatus →
      c.elapsedSeconds ≤ texTimeoutSeconds →
      c.record.jobStatus ≠ some statusSucceeded →
      c.record.jobStatus ≠ some statusFailed →
      (texStep (TexEnv.mk "job-1" (fun _ => "IN_PROGRESS")) c).state = TexState.waitOneMinute ∧
      (texStep (TexEnv.mk "job-1" (fun _ => "IN_PROGRESS"))
        (texStep (TexEnv.mk "job-1" (fun _ => "IN_PROGRESS")) c)).state =
          TexState.getDocumentAnalysis ∧
      (texStep (TexEnv.mk "job-1" (fun _ => "IN_PROGRESS"))
        (texStep (TexEnv.mk "job-1" (fun _ => "IN_PROGRESS")) c)).elapsedSeconds =
          c.elapsedSeconds + waitSeconds) ∧
    (∀ fuel : Nat,
      (texRun (TexEnv.mk "job-1" (fun _ => "IN_PROGRESS")) fuel
        (texInit "doc.pdf")).state.isSuccess = false ∧
      (texRun (TexEnv.mk "job-1" (fun _ => "IN_PROGRESS")) fuel
        (texInit "doc.pdf")).state.isFailure = false) ∧
    (texRun (TexEnv.mk "job-1" (fun _ => "IN_PROGRESS")) 543
      (texInit "doc.pdf")).state = TexState.timedOut :=
  textract_polling_cadence (TexEnv.mk "job-1" (fun _ => "IN_PROGRESS")) "doc.pdf"
    (by
      have h1 : ("IN_PROGRESS" : String) ≠ statusSucceeded := by decide
      have h2 : ("IN_PROGRESS" : String) ≠ statusFailed := by decide
      exact fun _ => ⟨h1, h2⟩)

/-- C1 counterexample: an input whose skip-rotation flag is present with
value false takes the skip branch: analyze, correct and the 5-second wait
are all bypassed, contradicting the claim that a false flag always
executes the detect/correct/wait sequence. -/
theorem skip_rotation_false_bypasses_counterexample :
    orientPath (OrientInput.mk "script.pdf" (some false)) =
      [OrientState.pdfToImagesTask, OrientState.skipRotationChoice,
       OrientState.skipFixingRotation, OrientState.imagesToPdfTask] ∧
    OrientState.analyzeDocumentImagesTask ∉
      orientPath (OrientInput.mk "script.pdf" (some false)) ∧
    OrientState.correctImageOrientationTask ∉
      orientPath (OrientInput.mk "script.pdf" (some false)) ∧
    OrientState.waitFiveSeconds ∉
      orientPath (OrientInput.mk "script.pdf" (some false)) := by
  refine ⟨rfl, ?_, ?_, ?_⟩ <;> decide

/-- C1 (amended): the Choice tests presence of the skip-rotation field:
any input whose field is present, whatever its value, bypasses the
detect/correct/wait steps and proceeds to recombination; any input whose
field is absent executes analyze, then correct, then the 5-second wait,
before recombination. -/
theorem skip_rotation_choice_paths (i : OrientInput) :
    orientWaitSeconds = 5 ∧
    (i.skipRotation.isSome = true →
      orientPath i = [OrientState.pdfToImagesTask, OrientState.skipRotationChoice,
        OrientState.skipFixingRotation, OrientState.imagesToPdfTask]) ∧
    (i.skipRotation = none →
      orientPath i = [OrientState.pdfToImagesTask, OrientState.skipRotationChoice,
        OrientState.analyzeDocumentImagesTask, OrientState.correctImageOrientationTask,
        OrientState.waitFiveSeconds, OrientState.imagesToPdfTask]) := by
  refine ⟨rfl, ?_, ?_⟩
  · intro h
    simp [orientPath, skipRotationChoicePath, skipRotationPresent, h]
  · intro h
    simp [orientPath, skipRotationChoicePath, skipRotationPresent, h]

/-- C1 witness: the two branch shapes at concrete inputs with the flag
present and absent. -/
theorem skip_rotation_choice_paths_witness :
    orientPath (OrientInput.mk "a.pdf" (some true)) =
      [OrientState.pdfToImagesTask, OrientState.skipRotationChoice,
       OrientState.skipFixingRotation, OrientState.imagesToPdfTask] ∧
    orientPath (OrientInput.mk "s.pdf" none) =
      [OrientState.pdfToImagesTask, OrientState.skipRotationChoice,
       OrientState.analyzeDocumentImagesTask, OrientState.correctImageOrientationTask,
       OrientState.waitFiveSeconds, OrientState.imagesToPdfTask] :=
  ⟨(skip_rotation_choice_paths (OrientInput.mk "a.pdf" (some true))).2.1 rfl,
   (skip_rotation_choice_paths (OrientInput.mk "s.pdf" none)).2.2 rfl⟩

/-- C9: the standard-answer branch's input preparation always sets
skipRotation to true while the scripts branch never sets it, so the
standard-answer document bypasses orientation detection and correction
while the scripts document always passes through both. -/
theorem standard_answer_skips_rotation (x : OrchInput) :
    (standardAnswerPassInput x).skipRotation = some true ∧
    (scriptsPassInput x).skipRotation = none ∧
    OrientState.analyzeDocumentImagesTask ∉ orientPath (standardAnswerPassInput x) ∧
    OrientState.correctImageOrientationTask ∉ orientPath (standardAnswerPassInput x) ∧
    OrientState.analyzeDocumentImagesTask ∈ orientPath (scriptsPassInput x) ∧
    OrientState.correctImageOrientationTask ∈ orientPath (scriptsPassInput x) := by
  refine ⟨rfl, rfl, ?_, ?_, ?_, ?_⟩ <;>
    simp [orientPath, skipRotationChoicePath, skipRotationPresent,
      standardAnswerPassInput, scriptsPassInput]

/-- C9 witness: the same facts at the concrete orchestrator input with
scripts key s.pdf and standard-answer key a.pdf. -/
theorem standard_answer_skips_rotation_witness :
    (standardAnswerPassInput (OrchInput.mk "s.pdf" "a.pdf")).skipRotation = some true ∧
    (scriptsPassInput (OrchInput.mk "s.pdf" "a.pdf")).skipRotation = none ∧
    OrientState.analyzeDocumentImagesTask ∉
      orientPath (standardAnswerPassInput (OrchInput.mk "s.pdf" "a.pdf")) ∧
    OrientState.correctImageOrientationTask ∉
      orientPath (standardAnswerPassInput (OrchInput.mk "s.pdf" "a.pdf")) ∧
    OrientState.analyzeDocumentImagesTask ∈
      orientPath (scriptsPassInput (OrchInput.mk "s.pdf" "a.pdf")) ∧
    OrientState.correctImageOrientationTask ∈
      orientPath (scriptsPassInput (OrchInput.mk "s.pdf" "a.pdf")) :=
  standard_answer_skips_rotation (OrchInput.mk "s.pdf" "a.pdf")

/-- C4: the fan-in merges positionally: in whichever order the two
branches complete, the combined record binds branch 0's output to the
scripts slot and branch 1's output to the standardAnswer slot, and branch
0 is the chain beginning with ScriptsPass while branch 1 begins with
StandardAnswerPass. -/
theorem parallel_fanin_positional {α : Type} (s a : α) (events : List (Fin 2 × α))
    (h : events = [(0, s), (1, a)] ∨ events = [(1, a), (0, s)]) :
    processParallelOutput events = some (CombinedRecord.mk s a) ∧
    (parallelBranches.get? 0).bind List.head? = some OrchStep.scriptsPass ∧
    (parallelBranches.get? 1).bind List.head? = some OrchStep.standardAnswerPass := by
  rcases h with h | h <;> subst h <;> exact ⟨rfl, rfl, rfl⟩

/-- C4 witness: with the standard-answer branch completing first, the
merge still binds the scripts output to the scripts slot. -/
theorem parallel_fanin_positional_witness :
    processParallelOutput
        [((1 : Fin 2), "answer-output"), ((0 : Fin 2), "scripts-output")] =
      some (CombinedRecord.mk "scripts-output" "answer-output") ∧
    (parallelBranches.get? 0).bind List.head? = some OrchStep.scriptsPass ∧
    (parallelBranches.get? 1).bind List.head? = some OrchStep.standardAnswerPass :=
  parallel_fanin_positional "scripts-output" "answer-output"
    [((1 : Fin 2), "answer-output"), ((0 : Fin 2), "scripts-output")] (Or.inr rfl)

theorem lookupAssoc_setAssoc_self (fs : List (String × Json)) (k : String) (v : Json) :
    lookupAssoc (setAssoc fs k v) k = some v := by
  induction fs with
  | nil => simp [setAssoc, lookupAssoc]
  | cons p rest ih =>
      obtain ⟨k2, v2⟩ := p
      by_cases h : k2 = k
      · simp [setAssoc, h, lookupAssoc]
      · simp [setAssoc, h, lookupAssoc, ih]

theorem lookupAssoc_setAssoc_other (fs : List (String × Json)) (k k2 : String) (v : Json)
    (h : k2 ≠ k) : lookupAssoc (setAssoc fs k v) k2 = lookupAssoc fs k2 := by
  have hk : ¬ k = k2 := fun h2 => h h2.symm
  induction fs with
  | nil => simp [setAssoc, lookupAssoc, hk]
  | cons p rest ih =>
      obtain ⟨k3, v3⟩ := p
      by_cases h3 : k3 = k
      · subst h3
        simp [setAssoc, lookupAssoc, hk]
      · simp [setAssoc, h3, lookupAssoc, ih]

/-- C7 counterexample: a record entering a Lambda task with a key field
has its payload merged at the fixed path `$.results`, but the task's
outputPath then selects only the payload: the key field present before
the step is not available in the step's output record. -/
theorem lambda_task_drops_prior_fields_counterexample :
    (Json.obj [("key", Json.str "a.pdf"), ("skipRotation", Json.bool true)]).getField
        "key" = some (Json.str "a.pdf") ∧
    getLambdaInvokeTaskOutput
        (Json.obj [("key", Json.str "a.pdf"), ("skipRotation", Json.bool true)])
        (Json.obj [("images", Json.str "pages/")]) =
      some (Json.obj [("images", Json.str "pages/")]) ∧
    ((getLambdaInvokeTaskOutput
        (Json.obj [("key", Json.str "a.pdf"), ("skipRotation", Json.bool true)])
        (Json.obj [("images", Json.str "pages/")])).bind
      (fun out => out.getField "key")) = none :=
  ⟨rfl, rfl, rfl⟩

/-- C7 (amended): each Lambda task's result is merged into the execution
record at the fixed result path `$.results` — in that merged record every
prior field other than `results` is still available — but the task's
outputPath then selects `$.results.Payload`, so the step's output is
exactly the function payload and the prior fields do not remain available
after the step. -/
theorem lambda_task_output_is_payload (fs : List (String × Json)) (payload : Json) :
    getLambdaInvokeTaskOutput (Json.obj fs) payload = some payload ∧
    (∀ k v, k ≠ "results" → (Json.obj fs).getField k = some v →
      (Json.setField (Json.obj fs) "results" (lambdaInvokeResult payload)).bind
        (fun m => m.getField k) = some v) := by
  constructor
  · simp [getLambdaInvokeTaskOutput, Json.setField, Json.getField,
      lookupAssoc_setAssoc_self, lambdaInvokeResult, lookupAssoc]
  · intro k v hk hget
    have hmain : (Json.obj (setAssoc fs "results" (lambdaInvokeResult payload))).getField
        k = some v := by
      show lookupAssoc (setAssoc fs "results" (lambdaInvokeResult payload)) k = some v
      rw [lookupAssoc_setAssoc_other fs "results" k (lambdaInvokeResult payload) hk]
      exact hget
    exact hmain

/-- C7 witness: at a concrete record the step output equals the payload,
and the prior key field is still present in the intermediate merged
record. -/
theorem lambda_task_output_is_payload_witness :
    getLambdaInvokeTaskOutput (Json.obj [("key", Json.str "a.pdf")])
        (Json.obj [("images", Json.str "pages/")]) =
      some (Json.obj [("images", Json.str "pages/")]) ∧
    (Json.setField (Json.obj [("key", Json.str "a.pdf")]) "results"
        (lambdaInvokeResult (Json.obj [("images", Json.str "pages/")]))).bind
      (fun m => m.getField "key") = some (Json.str "a.pdf") :=
  ⟨(lambda_task_output_is_payload [("key", Json.str "a.pdf")]
      (Json.obj [("images", Json.str "pages/")])).1,
   (lambda_task_output_is_payload [("key", Json.str "a.pdf")]
      (Json.obj [("images", Json.str "pages/")])).2 "key" (Json.str "a.pdf")
      (by decide) rfl⟩

theorem runTask_no_retry_no_catch (t : TaskDefn) (attempt : Nat → Except String Json)
    (e : String) (h1 : t.retriers = []) (h2 : t.catchers = [])
    (h3 : attempt 0 = Except.error e) : runTask t (attempt) = Except.error e := by
  simp [runTask, extraAttempts, h1, h2, runAttempts, h3]

theorem runChain_error (attempts : String → Nat → Except String Json) (e : String) :
    ∀ pre t post, (∀ t2, t2 ∈ pre → ∃ v, runTask t2 (attempts t2.id) = Except.ok v) →
    runTask t (attempts t.id) = Except.error e →
    runChain (pre ++ t :: post) attempts = Except.error e := by
  intro pre
  induction pre with
  | nil =>
      intro t post _ herr
      simp [runChain, herr]
  | cons t2 rest ih =>
      intro t post hpre herr
      obtain ⟨v, hv⟩ := hpre t2 (List.mem_cons_self t2 rest)
      have hrest := ih t post (fun t3 h3 => hpre t3 (List.mem_cons_of_mem t2 h3)) herr
      simp [runChain, hv, hrest]

/-- C8: every step of the orientation pipeline and of the orchestrator is
declared without a retry policy and without a catch branch, and an error
raised by any step whose predecessors succeeded propagates as the failure
of the whole enclosing chain, with no partial result salvaged. -/
theorem step_error_propagates (attempts : String → Nat → Except String Json) (e : String) :
    (∀ s : OrientState, (orientTaskDefn s).retriers = [] ∧
      (orientTaskDefn s).catchers = []) ∧
    (∀ s : OrchStep, (orchTaskDefn s).retriers = [] ∧ (orchTaskDefn s).catchers = []) ∧
    (∀ i : OrientInput, ∀ pre t post, orientTaskChain i = pre ++ t :: post →
      (∀ t2, t2 ∈ pre → ∃ v, runTask t2 (attempts t2.id) = Except.ok v) →
      attempts t.id 0 = Except.error e →
      runChain (orientTaskChain i) attempts = Except.error e) ∧
    (∀ pre t post, orchestratorTaskChain = pre ++ t :: post →
      (∀ t2, t2 ∈ pre → ∃ v, runTask t2 (attempts t2.id) = Except.ok v) →
      attempts t.id 0 = Except.error e →
      runChain orchestratorTaskChain attempts = Except.error e) := by
  have hOrient : ∀ s : OrientState, (orientTaskDefn s).retriers = [] ∧
      (orientTaskDefn s).catchers = [] := by
    intro s; cases s <;> exact ⟨rfl, rfl⟩
  have hOrch : ∀ s : OrchStep, (orchTaskDefn s).retriers = [] ∧
      (orchTaskDefn s).catchers = [] := by
    intro s; cases s <;> exact ⟨rfl, rfl⟩
  refine ⟨hOrient, hOrch, ?_, ?_⟩
  · intro i pre t post hchain hpre herr
    have ht : t ∈ orientTaskChain i := by
      rw [hchain]
      exact List.mem_append_right pre (List.mem_cons_self t post)
    obtain ⟨s, hmem, hseq⟩ := List.mem_map.mp ht
    have hret : t.retriers = [] := by rw [← hseq]; exact (hOrient s).1
    have hcat : t.catchers = [] := by rw [← hseq]; exact (hOrient s).2
    have hrt : runTask t (attempts t.id) = Except.error e :=
      runTask_no_retry_no_catch t (attempts t.id) e hret hcat herr
    rw [hchain]
    exact runChain_error attempts e pre t post hpre hrt
  · intro pre t post hchain hpre herr
    have ht : t ∈ orchestratorTaskChain := by
      rw [hchain]
      exact List.mem_append_right pre (List.mem_cons_self t post)
    obtain ⟨s, hmem, hseq⟩ := List.mem_map.mp ht
    have hret : t.retriers = [] := by rw [← hseq]; exact (hOrch s).1
    have hcat : t.catchers = [] := by rw [← hseq]; exact (hOrch s).2
    have hrt : runTask t (attempts t.id) = Except.error e :=
      runTask_no_retry_no_catch t (attempts t.id) e hret hcat herr
    rw [hchain]
    exact runChain_error attempts e pre t post hpre hrt

/-- C8 witness: with the analyze step erroring on the scripts input, the
whole orientation chain fails with that error. -/
theorem step_error_propagates_witness :
    runChain (orientTaskChain (OrientInput.mk "s.pdf" none))
      (fun id _ => if id = "AnalyzeDocumentImagesTask" then Except.error "boom"
        else Except.ok Json.null) = Except.error "boom" :=
  (step_error_propagates
      (fun id _ => if id = "AnalyzeDocumentImagesTask" then Except.error "boom"
        else Except.ok Json.null) "boom").2.2.1
    (OrientInput.mk "s.pdf" none)
    [TaskDefn.mk "PdfToImagesTask" [] [], TaskDefn.mk "SkipRotationChoice" [] []]
    (TaskDefn.mk "AnalyzeDocumentImagesTask" [] [])
    [TaskDefn.mk "CorrectImageOrientationTask" [] [], TaskDefn.mk "WaitFiveSeconds" [] [],
     TaskDefn.mk "ImagesToPdfTask" [] []]
    rfl
    (by
      intro t2 h2
      simp only [List.mem_cons, List.not_mem_nil, or_false] at h2
      rcases h2 with h2 | h2 <;> subst h2 <;> exact ⟨Json.null, rfl⟩)
    rfl

theorem lookupToken_after_start (freshId : Nat → String)
    (started : List (String × String)) (p : StartDocumentAnalysisParams) :
    lookupToken (startDocumentAnalysisService freshId started p).1 p.ClientRequestToken =
      some (startDocumentAnalysisService freshId started p).2 := by
  unfold startDocumentAnalysisService
  cases h : lookupToken started p.ClientRequestToken with
  | some j => simp [h]
  | none => simp [h, lookupToken]

/-- C10: the submission passes the execution name as both the client
request token and the job tag of startDocumentAnalysis, so resubmitting
within the same execution is idempotent: a second identical submission
returns the identifier of the already-started job and records no new
job. -/
theorem submission_idempotent (executionName key sourceBucket destinationBucket : String)
    (freshId : Nat → String) (started : List (String × String)) :
    (runAmazonTextractParams executionName key sourceBucket
      destinationBucket).ClientRequestToken = executionName ∧
    (runAmazonTextractParams executionName key sourceBucket
      destinationBucket).JobTag = executionName ∧
    startDocumentAnalysisService freshId
      (startDocumentAnalysisService freshId started
        (runAmazonTextractParams executionName key sourceBucket destinationBucket)).1
      (runAmazonTextractParams executionName key sourceBucket destinationBucket) =
    startDocumentAnalysisService freshId started
      (runAmazonTextractParams executionName key sourceBucket destinationBucket) := by
  refine ⟨rfl, rfl, ?_⟩
  have h := lookupToken_after_start freshId started
    (runAmazonTextractParams executionName key sourceBucket destinationBucket)
  rcases hres : startDocumentAnalysisService freshId started
    (runAmazonTextractParams executionName key sourceBucket destinationBucket) with ⟨st1, j1⟩
  rw [hres] at h
  simp only at h
  conv_lhs => rw [startDocumentAnalysisService]
  simp [h]

/-- C10 witness: a concrete double submission within one execution returns
the same job identifier and the same started-job list. -/
theorem submission_idempotent_witness :
    (runAmazonTextractParams "exec-1" "s.pdf" "src-bucket"
      "dst-bucket").ClientRequestToken = "exec-1" ∧
    (runAmazonTextractParams "exec-1" "s.pdf" "src-bucket" "dst-bucket").JobTag = "exec-1" ∧
    startDocumentAnalysisService (fun n => "job-" ++ toString n)
      (startDocumentAnalysisService (fun n => "job-" ++ toString n) []
        (runAmazonTextractParams "exec-1" "s.pdf" "src-bucket" "dst-bucket")).1
      (runAmazonTextractParams "exec-1" "s.pdf" "src-bucket" "dst-bucket") =
    startDocumentAnalysisService (fun n => "job-" ++ toString n) []
      (runAmazonTextractParams "exec-1" "s.pdf" "src-bucket" "dst-bucket") :=
  submission_idempotent "exec-1" "s.pdf" "src-bucket" "dst-bucket"
    (fun n => "job-" ++ toString n) []
